import Mathlib

/-!
Shallow embedding of the ChapChap package-tracking workflow engine
(src/unnamed/part_005, the TrackingService: PACKAGE_STATUS, ALLOWED_TRANSITIONS,
updatePackageStatus, isTransitionAllowed, hasPermissionToUpdate,
createTrackingRecord, sendStatusNotifications, getPackageTracking,
createDispute), together with proofs about the status state machine, its
permission model, its persistence behaviour and its failure modes.
-/

namespace ChapChap

/-- The seven status tokens of the PACKAGE_STATUS enum. -/
inductive Status
  | requested
  | accepted
  | pickedUp
  | inTransit
  | arrived
  | delivered
  | disputed
deriving DecidableEq, Fintype, Repr

/-- The string token each PACKAGE_STATUS member is persisted as. -/
def Status.token : Status → String
  | .requested => "requested"
  | .accepted => "accepted"
  | .pickedUp => "picked_up"
  | .inTransit => "in_transit"
  | .arrived => "arrived"
  | .delivered => "delivered"
  | .disputed => "disputed"

/-- The list of the seven persisted status tokens. -/
def statusTokens : List String :=
  ["requested", "accepted", "picked_up", "in_transit", "arrived", "delivered", "disputed"]

/-- A JS string value that may be null or undefined, as read from the
packages.status column. -/
inductive JSStr
  | null
  | str (s : String)
deriving DecidableEq, Repr

/-- JS truthiness of such a value: null, undefined and the empty string are falsy. -/
def JSStr.truthy : JSStr → Bool
  | .null => false
  | .str s => !(s == "")

/-- The underlying string of a JSStr, defaulting to the empty string; only used
on truthy values, where it is the stored string. -/
def JSStr.strVal : JSStr → String
  | .null => ""
  | .str s => s

/-- The ALLOWED_TRANSITIONS constant map: key lookup returns the list of statuses
reachable from the key, or undefined (none) for a key outside the enum. -/
def ALLOWED_TRANSITIONS : String → Option (List String)
  | "requested" => some ["accepted", "disputed"]
  | "accepted" => some ["picked_up", "disputed"]
  | "picked_up" => some ["in_transit", "disputed"]
  | "in_transit" => some ["arrived", "disputed"]
  | "arrived" => some ["delivered", "disputed"]
  | "delivered" => some ["disputed"]
  | "disputed" => some []
  | _ => none

/-- TrackingService.isTransitionAllowed: a falsy current status admits only
REQUESTED; otherwise looks the current status up in ALLOWED_TRANSITIONS with
optional chaining, an undefined lookup giving false. -/
def isTransitionAllowed (currentStatus : JSStr) (newStatus : String) : Bool :=
  if !currentStatus.truthy then newStatus == "requested"
  else ((ALLOWED_TRANSITIONS currentStatus.strVal).getD []).contains newStatus

/-- One row of the packages table joined with its trip, as loaded by
updatePackageStatus: sender identity, the trip traveler (nullable), and the
current status. -/
structure PackageRow where
  id : Nat
  senderId : Nat
  travelerId : Option Nat
  status : JSStr
  title : String
deriving DecidableEq, Repr

/-- TrackingService.hasPermissionToUpdate: the switch over the requested status.
isOwner is sender_id === userId, isTraveler is traveler_id === userId. -/
def hasPermissionToUpdate (pkg : PackageRow) (userId : Nat) (newStatus : String) : Bool :=
  if newStatus == "accepted" || newStatus == "picked_up" ||
      newStatus == "in_transit" || newStatus == "arrived" then
    pkg.travelerId == some userId
  else if newStatus == "delivered" then
    pkg.senderId == userId
  else if newStatus == "disputed" then
    pkg.senderId == userId || pkg.travelerId == some userId
  else
    false

/-- Transcription of the transition graph as the specification states it
(section 4.1), for comparison with the ALLOWED_TRANSITIONS table of the code. -/
def specNextStates : Status → List Status
  | .requested => [.accepted, .disputed]
  | .accepted => [.pickedUp, .disputed]
  | .pickedUp => [.inTransit, .disputed]
  | .inTransit => [.arrived, .disputed]
  | .arrived => [.delivered, .disputed]
  | .delivered => [.disputed]
  | .disputed => []

/-- Transcription of the role-gating sentence of the specification
(section 4.1): the carrier alone drives ACCEPTED, PICKED_UP, IN_TRANSIT,
ARRIVED; the sender alone drives DELIVERED; either party drives DISPUTED;
nobody drives REQUESTED. -/
def specPermitted (pkg : PackageRow) (uid : Nat) : Status → Bool
  | .accepted => pkg.travelerId == some uid
  | .pickedUp => pkg.travelerId == some uid
  | .inTransit => pkg.travelerId == some uid
  | .arrived => pkg.travelerId == some uid
  | .delivered => pkg.senderId == uid
  | .disputed => pkg.senderId == uid || pkg.travelerId == some uid
  | .requested => false

/-- One row of the package_tracking table: an immutable transition record as
written by createTrackingRecord. -/
structure TrackingRecord where
  packageId : Nat
  status : String
  userId : Nat
  notes : Option String
  location : Option String
  photoPath : Option String
  timestamp : Nat
deriving DecidableEq, Repr

/-- One row of the package_disputes table as written by createDispute. -/
structure DisputeRow where
  id : Nat
  packageId : Nat
  reporterId : Nat
  reason : String
  description : String
  evidencePhotos : List String
deriving DecidableEq, Repr

/-- The persistent state the tracking service reads and writes: the packages
table (joined with trips and users at load time), the append-only
package_tracking table in insertion order, the package_disputes table, and a
monotonic clock standing for CURRENT_TIMESTAMP / new Date(). -/
structure DBState where
  packages : List PackageRow
  tracking : List TrackingRecord
  disputes : List DisputeRow
  clock : Nat
deriving DecidableEq, Repr

/-- Decidable equality of Except values, so that concrete runs of the service
can be checked by evaluation. -/
instance {ε α : Type} [DecidableEq ε] [DecidableEq α] : DecidableEq (Except ε α) :=
  fun x y =>
    match x, y with
    | .ok a, .ok b =>
      if h : a = b then .isTrue (by rw [h]) else .isFalse (fun he => by cases he; exact h rfl)
    | .ok _, .error _ => .isFalse (fun he => by cases he)
    | .error _, .ok _ => .isFalse (fun he => by cases he)
    | .error e1, .error e2 =>
      if h : e1 = e2 then .isTrue (by rw [h]) else .isFalse (fun he => by cases he; exact h rfl)

/-- The error cases the service throws. notFound is the missing-package throw,
invalidTransition and permissionDenied the two validation throws,
notificationFailure a throw out of the external socket emit, and
persistenceFailure a failed database write. -/
inductive TrackingError
  | notFound
  | invalidTransition (currentStatus : JSStr) (newStatus : String)
  | permissionDenied
  | notificationFailure
  | persistenceFailure
deriving DecidableEq, Repr

/-- The options object of updatePackageStatus. -/
structure UpdateOptions where
  notes : Option String
  location : Option String
  photoPath : Option String
deriving DecidableEq, Repr

/-- The JS idiom options.notes or-else null: a falsy value (absent or the empty
string) becomes null. -/
def jsOrNull : Option String → Option String
  | some s => if s == "" then none else some s
  | none => none

/-- The data the dispute routes pass to createDispute. -/
structure DisputeData where
  reason : String
  description : String
  evidencePhotos : List String
deriving DecidableEq, Repr

/-- socketService.sendSystemNotification: emits on the external socket channel
to one recipient. It has no internal try/catch, so a throwing emit propagates
to its caller; emitFails says which recipients the external channel throws
for. -/
def sendSystemNotification (emitFails : Nat → Bool) (recipient : Nat) :
    Except TrackingError Unit :=
  if emitFails recipient then .error .notificationFailure else .ok ()

/-- TrackingService.sendStatusNotifications: notifies the sender when the
sender is not the actor, then the traveler when present (truthy) and not the
actor. Neither call is guarded, so the first throwing emit aborts the rest and
propagates. -/
def sendStatusNotifications (emitFails : Nat → Bool) (pkg : PackageRow)
    (actorId : Nat) : Except TrackingError Unit := do
  if !(pkg.senderId == actorId) then
    sendSystemNotification emitFails pkg.senderId
  match pkg.travelerId with
  | some tid =>
    if !(tid == 0) && !(tid == actorId) then
      sendSystemNotification emitFails tid
    else
      pure ()
  | none => pure ()

/-- The tracking record a given updatePackageStatus call hands to
createTrackingRecord: the package, the new status, the acting user, the
or-null-normalised options and the current timestamp. -/
def mkTrackingRecord (st : DBState) (pid : Nat) (ns : String) (uid : Nat)
    (opts : UpdateOptions) : TrackingRecord :=
  { packageId := pid, status := ns, userId := uid,
    notes := jsOrNull opts.notes, location := jsOrNull opts.location,
    photoPath := jsOrNull opts.photoPath, timestamp := st.clock }

/-- The success payload of updatePackageStatus: the updated package row and the
tracking record it created. -/
structure UpdateResult where
  pkg : PackageRow
  record : TrackingRecord
deriving DecidableEq, Repr

/-- TrackingService.updatePackageStatus. Inside one transaction on a pooled
client: load the package row (throw notFound when absent), check
isTransitionAllowed (throw invalidTransition), check hasPermissionToUpdate
(throw permissionDenied), UPDATE the status, INSERT the tracking record,
COMMIT. Any throw before COMMIT triggers ROLLBACK, leaving the state as
loaded. The notification dispatch runs after COMMIT but still inside the try
block, so a throwing dispatch is re-thrown to the caller while the ROLLBACK it
triggers is a no-op on the already committed write: the returned state keeps
the commit, and the result is the error. -/
def updatePackageStatus (emitFails : Nat → Bool) (st : DBState) (packageId : Nat)
    (newStatus : String) (userId : Nat) (opts : UpdateOptions) :
    DBState × Except TrackingError UpdateResult :=
  match st.packages.find? (fun p => p.id == packageId) with
  | none => (st, .error .notFound)
  | some pkg =>
    if isTransitionAllowed pkg.status newStatus = false then
      (st, .error (.invalidTransition pkg.status newStatus))
    else if hasPermissionToUpdate pkg userId newStatus = false then
      (st, .error .permissionDenied)
    else
      let updated : PackageRow := { pkg with status := JSStr.str newStatus }
      let tr : TrackingRecord := mkTrackingRecord st packageId newStatus userId opts
      let committed : DBState :=
        { st with
          packages := st.packages.map (fun p => if p.id == packageId then updated else p),
          tracking := st.tracking ++ [tr],
          clock := st.clock + 1 }
      match sendStatusNotifications emitFails pkg userId with
      | .ok _ => (committed, .ok { pkg := updated, record := tr })
      | .error e => (committed, .error e)

/-- TrackingService.getPackageTracking: load the package parties (throw
notFound when absent), throw on an actor that is neither sender nor traveler,
otherwise return the tracking rows of the package ordered by created_at
ascending, which for the insertion-ordered table is the stored order. -/
def getPackageTracking (st : DBState) (packageId userId : Nat) :
    Except TrackingError (List TrackingRecord) :=
  match st.packages.find? (fun p => p.id == packageId) with
  | none => .error .notFound
  | some pkg =>
    if !(userId == pkg.senderId) && !(pkg.travelerId == some userId) then
      .error .permissionDenied
    else
      .ok (st.tracking.filter (fun tr => tr.packageId == packageId))

/-- TrackingService.createDispute. It BEGINs a transaction on a freshly pooled
client, but the nested updatePackageStatus call obtains a different client
from the pool and COMMITs its status update and tracking insert on that other
connection before returning. The dispute INSERT then runs on the first client;
disputeInsertFails injects a failure of that INSERT, whose ROLLBACK undoes
only the INSERT itself, never the already committed status update. The
dispute-created socket notification catches internally and cannot throw. -/
def createDispute (emitFails : Nat → Bool) (disputeInsertFails : Bool)
    (st : DBState) (packageId userId : Nat) (d : DisputeData) :
    DBState × Except TrackingError Nat :=
  let r := updatePackageStatus emitFails st packageId "disputed" userId
    { notes := some ("Litige declare: " ++ d.reason), location := none, photoPath := none }
  match r.2 with
  | .error e => (r.1, .error e)
  | .ok _ =>
    if disputeInsertFails then
      (r.1, .error .persistenceFailure)
    else
      let did := r.1.disputes.length + 1
      ({ r.1 with disputes := r.1.disputes ++
          [{ id := did, packageId := packageId, reporterId := userId,
             reason := d.reason, description := d.description,
             evidencePhotos := d.evidencePhotos }] }, .ok did)

/-- A sample package row: package 1, sender 10, traveler 20, status accepted. -/
def pkgW : PackageRow :=
  { id := 1, senderId := 10, travelerId := some 20,
    status := JSStr.str "accepted", title := "box" }

/-- A sample state holding pkgW and its one tracking record. -/
def stW : DBState :=
  { packages := [pkgW],
    tracking := [{ packageId := 1, status := "accepted", userId := 20,
                   notes := none, location := none, photoPath := none, timestamp := 0 }],
    disputes := [], clock := 1 }

/-- An emit function that never throws. -/
def noEmitFail : Nat → Bool := fun _ => false

/-- Empty update options. -/
def optsW : UpdateOptions := { notes := none, location := none, photoPath := none }

/-- One of two concurrent apply requests on the same package: the requested
status and the actor. -/
structure ApplyReq where
  newStatus : String
  userId : Nat
deriving DecidableEq, Repr

/-- The validation phase of updatePackageStatus against the snapshot the
transaction loaded: the transition check, then the permission check. -/
def validateReq (pkg : PackageRow) (r : ApplyReq) : Except TrackingError Unit :=
  if isTransitionAllowed pkg.status r.newStatus = false then
    .error (.invalidTransition pkg.status r.newStatus)
  else if hasPermissionToUpdate pkg r.userId r.newStatus = false then
    .error .permissionDenied
  else
    .ok ()

/-- The write-and-commit phase of updatePackageStatus: the UPDATE whose WHERE
clause tests only the package id (no guard on the status read earlier), the
tracking INSERT, and the COMMIT. -/
def commitWrite (st : DBState) (pid : Nat) (r : ApplyReq) : DBState :=
  { st with
    packages := st.packages.map
      (fun p => if p.id == pid then { p with status := JSStr.str r.newStatus } else p),
    tracking := st.tracking ++
      [{ packageId := pid, status := r.newStatus, userId := r.userId,
         notes := none, location := none, photoPath := none, timestamp := st.clock }],
    clock := st.clock + 1 }

/-- Two concurrent updatePackageStatus calls on one package under the
interleaving in which both transactions run their SELECT before either UPDATE
commits. This interleaving is reachable because the SELECT takes no row lock
(no FOR UPDATE), and under the default READ COMMITTED isolation the second
UPDATE, after waiting out the first writer's row lock, re-checks only its
WHERE clause - the package id - and applies. Each transaction validates
against the snapshot it loaded; the first request commits first. Returns the
final state and each caller's outcome. -/
def runConcurrentBothLoadFirst (st : DBState) (pid : Nat) (r1 r2 : ApplyReq) :
    DBState × Except TrackingError Unit × Except TrackingError Unit :=
  match st.packages.find? (fun p => p.id == pid) with
  | none => (st, .error .notFound, .error .notFound)
  | some pkg =>
    match validateReq pkg r1, validateReq pkg r2 with
    | .ok _, .ok _ => (commitWrite (commitWrite st pid r1) pid r2, .ok (), .ok ())
    | .ok _, .error e => (commitWrite st pid r1, .ok (), .error e)
    | .error e, .ok _ => (commitWrite st pid r2, .error e, .ok ())
    | .error e1, .error e2 => (st, .error e1, .error e2)

/-- The chronological-order invariant of the package_tracking table: stored
order is nondecreasing in the created_at timestamp. -/
def trackingChronological (st : DBState) : Prop :=
  st.tracking.Pairwise (fun a b => a.timestamp ≤ b.timestamp)

/-- Well-formedness of the store: the tracking table is chronological and all
its timestamps lie below the clock. -/
def trackingWF (st : DBState) : Prop :=
  trackingChronological st ∧ ∀ tr ∈ st.tracking, tr.timestamp < st.clock

end ChapChap

namespace ChapChap

/-- find? over the per-id replacement that the UPDATE statement performs:
replacing the found row by a row with the same id leaves it the row found. -/
theorem find?_map_replace (l : List PackageRow) (pid : Nat) (pkg upd : PackageRow)
    (hfind : l.find? (fun p => p.id == pid) = some pkg) (hid : upd.id = pkg.id) :
    (l.map (fun p => if p.id == pid then upd else p)).find? (fun p => p.id == pid) =
      some upd := by
  induction l with
  | nil => simp at hfind
  | cons a t ih =>
    simp only [List.map_cons]
    by_cases h : (a.id == pid) = true
    · have ha : a = pkg := by simp [List.find?_cons, h] at hfind; exact hfind
      have hupd : (upd.id == pid) = true := by rw [hid, ← ha]; exact h
      rw [if_pos h]
      simp [List.find?_cons, hupd]
    · have hfind' : t.find? (fun p => p.id == pid) = some pkg := by
        simpa [List.find?_cons, h] using hfind
      rw [if_neg h]
      simpa [List.find?_cons, h] using ih hfind'

/-- An actor granted any transition by hasPermissionToUpdate is one of the
package's two parties. -/
theorem hasPermission_party (pkg : PackageRow) (uid : Nat) (s : String)
    (h : hasPermissionToUpdate pkg uid s = true) :
    uid = pkg.senderId ∨ pkg.travelerId = some uid := by
  unfold hasPermissionToUpdate at h
  split at h
  · right; simpa using h
  · split at h
    · left; exact (by simpa using h : pkg.senderId = uid).symm
    · split at h
      · simp only [Bool.or_eq_true, beq_iff_eq] at h
        rcases h with h' | h'
        · left; exact h'.symm
        · right; exact h'
      · simp at h

/-- The last element of a filtered append when the appended record satisfies
the filter. -/
theorem filter_append_getLast (l : List TrackingRecord) (tr : TrackingRecord) (pid : Nat)
    (h : (tr.packageId == pid) = true) :
    ((l ++ [tr]).filter (fun x => x.packageId == pid)).getLast? = some tr := by
  rw [List.filter_append]
  simp [h, List.getLast?_concat]

/-- On the success path (row found, transition allowed, permission granted) the
returned state is the committed one, whatever the notification dispatch does. -/
theorem updatePackageStatus_success_state (emitFails : Nat → Bool) (st : DBState)
    (pid : Nat) (ns : String) (uid : Nat) (opts : UpdateOptions) (pkg : PackageRow)
    (hfind : st.packages.find? (fun p => p.id == pid) = some pkg)
    (ht : ¬ isTransitionAllowed pkg.status ns = false)
    (hp : ¬ hasPermissionToUpdate pkg uid ns = false) :
    (updatePackageStatus emitFails st pid ns uid opts).1 =
      { st with
        packages := st.packages.map
          (fun p => if p.id == pid then { pkg with status := JSStr.str ns } else p),
        tracking := st.tracking ++ [mkTrackingRecord st pid ns uid opts],
        clock := st.clock + 1 } := by
  unfold updatePackageStatus
  rw [hfind]
  dsimp only
  rw [if_neg ht, if_neg hp]
  cases hn : sendStatusNotifications emitFails pkg uid <;> rfl

/-- The engine preserves the store's chronological well-formedness: the record
it appends carries the current clock, above every stored timestamp. -/
theorem updatePackageStatus_trackingWF (emitFails : Nat → Bool) (st : DBState)
    (pid : Nat) (ns : String) (uid : Nat) (opts : UpdateOptions)
    (h : trackingWF st) : trackingWF (updatePackageStatus emitFails st pid ns uid opts).1 := by
  obtain ⟨h1, h2⟩ := h
  rcases hfind : st.packages.find? (fun p => p.id == pid) with _ | pkg
  · have e : (updatePackageStatus emitFails st pid ns uid opts).1 = st := by
      simp [updatePackageStatus, hfind]
    rw [e]; exact ⟨h1, h2⟩
  · by_cases ht : isTransitionAllowed pkg.status ns = false
    · have e : (updatePackageStatus emitFails st pid ns uid opts).1 = st := by
        simp [updatePackageStatus, hfind, ht]
      rw [e]; exact ⟨h1, h2⟩
    · by_cases hp : hasPermissionToUpdate pkg uid ns = false
      · have e : (updatePackageStatus emitFails st pid ns uid opts).1 = st := by
          simp [updatePackageStatus, hfind, ht, hp]
        rw [e]; exact ⟨h1, h2⟩
      · rw [updatePackageStatus_success_state emitFails st pid ns uid opts pkg hfind ht hp]
        constructor
        · unfold trackingChronological
          dsimp only
          rw [List.pairwise_append]
          refine ⟨h1, by simp, ?_⟩
          intro a ha b hb
          simp only [List.mem_singleton] at hb
          subst hb
          exact le_of_lt (h2 a ha)
        · intro tr htr
          simp only [List.mem_append, List.mem_singleton] at htr
          rcases htr with htr | htr
          · exact lt_trans (h2 tr htr) (Nat.lt_succ_self _)
          · subst htr; exact Nat.lt_succ_self _

end ChapChap

namespace ChapChap

/-- C3: the transition graph of the code is exactly the one the specification
states: the ALLOWED_TRANSITIONS entry of every enum token is the
spec-transcribed successor list, and isTransitionAllowed holds on the seven
enum values exactly on the spec-transcribed pairs. -/
theorem transition_graph_exact :
    (∀ s : Status, ALLOWED_TRANSITIONS s.token = some ((specNextStates s).map Status.token)) ∧
    (∀ s n : Status, isTransitionAllowed (.str s.token) n.token = (specNextStates s).contains n) := by
  decide

/-- C10: on a shipment whose stored status is absent (null or undefined) or the
empty string, isTransitionAllowed accepts exactly the transition into
REQUESTED. -/
theorem statusless_only_requested (n : String) :
    isTransitionAllowed .null n = (n == "requested") ∧
    isTransitionAllowed (.str "") n = (n == "requested") := by
  constructor <;> simp [isTransitionAllowed, JSStr.truthy]

/-- C4: on every package row and every actor identity, hasPermissionToUpdate
computes exactly the spec-transcribed role gating on the seven enum tokens,
and grants nothing for a target status outside the seven tokens. -/
theorem role_gating_exact (pkg : PackageRow) (uid : Nat) :
    (∀ n : Status, hasPermissionToUpdate pkg uid n.token = specPermitted pkg uid n) ∧
    (∀ s : String, s ∉ statusTokens → hasPermissionToUpdate pkg uid s = false) := by
  constructor
  · intro n
    cases n <;> rfl
  · intro s hs
    simp only [statusTokens, List.mem_cons, List.not_mem_nil, or_false, not_or] at hs
    obtain ⟨h1, h2, h3, h4, h5, h6, h7⟩ := hs
    simp [hasPermissionToUpdate, h1, h2, h3, h4, h5, h6, h7]

/-- Witness for C4 at concrete inputs: the traveler is granted ACCEPTED, and a
status string outside the enum is granted to nobody. -/
theorem role_gating_exact_witness :
    hasPermissionToUpdate pkgW 20 Status.accepted.token = specPermitted pkgW 20 .accepted ∧
    hasPermissionToUpdate pkgW 20 "shipped" = false :=
  ⟨(role_gating_exact pkgW 20).1 .accepted,
   (role_gating_exact pkgW 20).2 "shipped" (by decide)⟩

/-- C1: evaluating createDispute at a package in status accepted with the
dispute INSERT failing: the caller gets the failure, yet the final state has
the committed status disputed and an empty disputes table. The rollback does
not restore the pre-dispute status, because the nested updatePackageStatus
committed it on a different pooled connection: a DISPUTED status exists with
no corresponding Dispute record. -/
theorem dispute_atomicity_violation :
    (createDispute noEmitFail true stW 1 10
        { reason := "damaged", description := "item broken", evidencePhotos := [] }).2 =
      .error .persistenceFailure ∧
    ((createDispute noEmitFail true stW 1 10
        { reason := "damaged", description := "item broken", evidencePhotos := [] }).1.packages.find?
        (fun p => p.id == 1)).map PackageRow.status = some (.str "disputed") ∧
    (createDispute noEmitFail true stW 1 10
        { reason := "damaged", description := "item broken", evidencePhotos := [] }).1.disputes = [] := by
  decide

/-- C2 counterexample: a valid, permitted transition (traveler 20 moves package
1 from accepted to picked_up) with an external channel that throws when
emitting to the sender: updatePackageStatus returns the notification error to
the caller instead of success, because the dispatch is awaited inside the try
block and re-thrown. -/
theorem notification_error_propagates_cex :
    (updatePackageStatus (fun r => r == 10) stW 1 "picked_up" 20 optsW).2 =
      .error .notificationFailure := by
  decide

/-- C5: validation failures have no side effects: on a loaded package, a
transition outside the graph returns the invalid-transition error with the
state exactly as it was, and an allowed transition by an unpermitted actor
returns the permission error with the state exactly as it was - both detected
before any write. -/
theorem validation_no_side_effects (emitFails : Nat → Bool) (st : DBState)
    (pid : Nat) (ns : String) (uid : Nat) (opts : UpdateOptions) (pkg : PackageRow)
    (hfind : st.packages.find? (fun p => p.id == pid) = some pkg) :
    (isTransitionAllowed pkg.status ns = false →
      updatePackageStatus emitFails st pid ns uid opts =
        (st, .error (.invalidTransition pkg.status ns))) ∧
    (isTransitionAllowed pkg.status ns = true →
      hasPermissionToUpdate pkg uid ns = false →
      updatePackageStatus emitFails st pid ns uid opts = (st, .error .permissionDenied)) := by
  constructor
  · intro h
    unfold updatePackageStatus
    rw [hfind]
    simp [h]
  · intro h1 h2
    unfold updatePackageStatus
    rw [hfind]
    simp [h1, h2]

/-- Witness for C5: accepted to delivered is outside the graph, so the sender's
request returns the invalid-transition error and the unchanged state; accepted
to picked_up is in the graph but not permitted to the sender, so that request
returns the permission error and the unchanged state. -/
theorem validation_no_side_effects_witness :
    updatePackageStatus noEmitFail stW 1 "delivered" 10 optsW =
      (stW, .error (.invalidTransition (.str "accepted") "delivered")) ∧
    updatePackageStatus noEmitFail stW 1 "picked_up" 10 optsW =
      (stW, .error .permissionDenied) :=
  ⟨(validation_no_side_effects noEmitFail stW 1 "delivered" 10 optsW pkgW (by decide)).1
      (by decide),
   (validation_no_side_effects noEmitFail stW 1 "picked_up" 10 optsW pkgW (by decide)).2
      (by decide) (by decide)⟩

/-- C6: the transition check runs before the permission check, so a request
that is both an invalid transition and not permitted for the actor returns the
invalid-transition error, not the permission error. -/
theorem invalid_before_permission (emitFails : Nat → Bool) (st : DBState)
    (pid : Nat) (ns : String) (uid : Nat) (opts : UpdateOptions) (pkg : PackageRow)
    (hfind : st.packages.find? (fun p => p.id == pid) = some pkg)
    (htrans : isTransitionAllowed pkg.status ns = false)
    (hperm : hasPermissionToUpdate pkg uid ns = false) :
    (updatePackageStatus emitFails st pid ns uid opts).2 =
      .error (.invalidTransition pkg.status ns) := by
  unfold updatePackageStatus
  rw [hfind]
  simp [htrans]

/-- Witness for C6: the sender requesting accepted on a package already in
accepted - an invalid transition that the sender is also not permitted to
drive - receives the invalid-transition error. -/
theorem invalid_before_permission_witness :
    (updatePackageStatus noEmitFail stW 1 "accepted" 10 optsW).2 =
      .error (.invalidTransition (.str "accepted") "accepted") :=
  invalid_before_permission noEmitFail stW 1 "accepted" 10 optsW pkgW
    (by decide) (by decide) (by decide)

/-- C7: round-trip consistency: whenever updatePackageStatus returns success
for target status X, the stored status of the package is X and the last record
of the history the actor can read back has status X. -/
theorem roundtrip_status (emitFails : Nat → Bool) (st : DBState) (pid : Nat)
    (ns : String) (uid : Nat) (opts : UpdateOptions) (r : UpdateResult)
    (h : (updatePackageStatus emitFails st pid ns uid opts).2 = .ok r) :
    ((updatePackageStatus emitFails st pid ns uid opts).1.packages.find?
        (fun p => p.id == pid)).map PackageRow.status = some (.str ns) ∧
    ∃ l, getPackageTracking (updatePackageStatus emitFails st pid ns uid opts).1 pid uid =
        .ok l ∧
      ∃ tr, l.getLast? = some tr ∧ tr.status = ns := by
  rcases hfind : st.packages.find? (fun p => p.id == pid) with _ | pkg
  · simp [updatePackageStatus, hfind] at h
  · by_cases ht : isTransitionAllowed pkg.status ns = false
    · simp [updatePackageStatus, hfind, ht] at h
    · by_cases hp : hasPermissionToUpdate pkg uid ns = false
      · simp [updatePackageStatus, hfind, ht, hp] at h
      · have hpost := updatePackageStatus_success_state emitFails st pid ns uid opts pkg
          hfind ht hp
        rw [hpost]
        have hfind2 :
            (st.packages.map
                (fun p => if p.id == pid then { pkg with status := JSStr.str ns } else p)).find?
              (fun p => p.id == pid) = some { pkg with status := JSStr.str ns } :=
          find?_map_replace st.packages pid pkg _ hfind rfl
        have hparty : uid = pkg.senderId ∨ pkg.travelerId = some uid :=
          hasPermission_party pkg uid ns (by revert hp; cases hasPermissionToUpdate pkg uid ns <;> simp)
        constructor
        · dsimp only
          rw [hfind2]
          rfl
        · refine ⟨((st.tracking ++ [mkTrackingRecord st pid ns uid opts]).filter
              (fun tr => tr.packageId == pid)), ?_,
              mkTrackingRecord st pid ns uid opts, ?_, rfl⟩
          · unfold getPackageTracking
            dsimp only
            rw [hfind2]
            rcases hparty with h' | h' <;> simp [h']
          · exact filter_append_getLast st.tracking _ pid (by simp [mkTrackingRecord])

/-- Witness for C7: the traveler moves the sample package from accepted to
picked_up; afterwards the stored status is picked_up and the last history
record read back has status picked_up. -/
theorem roundtrip_status_witness :
    ((updatePackageStatus noEmitFail stW 1 "picked_up" 20 optsW).1.packages.find?
        (fun p => p.id == 1)).map PackageRow.status = some (.str "picked_up") ∧
    ∃ l, getPackageTracking (updatePackageStatus noEmitFail stW 1 "picked_up" 20 optsW).1 1 20 =
        .ok l ∧
      ∃ tr, l.getLast? = some tr ∧ tr.status = "picked_up" :=
  roundtrip_status noEmitFail stW 1 "picked_up" 20 optsW
    { pkg := { id := 1, senderId := 10, travelerId := some 20,
               status := .str "picked_up", title := "box" },
      record := { packageId := 1, status := "picked_up", userId := 20,
                  notes := none, location := none, photoPath := none, timestamp := 1 } }
    (by decide)

/-- C2 (amended): a failing notification dispatch never rolls back the
committed transition - when updatePackageStatus returns the notification
error, the package's stored status is the new status and the history gained
its record - but the error is returned to the caller in place of success. -/
theorem notification_failure_keeps_commit (emitFails : Nat → Bool) (st : DBState)
    (pid : Nat) (ns : String) (uid : Nat) (opts : UpdateOptions)
    (h : (updatePackageStatus emitFails st pid ns uid opts).2 =
      .error .notificationFailure) :
    ((updatePackageStatus emitFails st pid ns uid opts).1.packages.find?
        (fun p => p.id == pid)).map PackageRow.status = some (.str ns) ∧
    (updatePackageStatus emitFails st pid ns uid opts).1.tracking.length =
      st.tracking.length + 1 := by
  rcases hfind : st.packages.find? (fun p => p.id == pid) with _ | pkg
  · simp [updatePackageStatus, hfind] at h
  · by_cases ht : isTransitionAllowed pkg.status ns = false
    · simp [updatePackageStatus, hfind, ht] at h
    · by_cases hp : hasPermissionToUpdate pkg uid ns = false
      · simp [updatePackageStatus, hfind, ht, hp] at h
      · rw [updatePackageStatus_success_state emitFails st pid ns uid opts pkg hfind ht hp]
        constructor
        · dsimp only
          rw [find?_map_replace st.packages pid pkg
            ({ pkg with status := JSStr.str ns }) hfind rfl]
          rfl
        · simp

/-- Witness for C2 at the concrete failing-channel run: after the notification
error, the stored status is picked_up and the history grew by one record. -/
theorem notification_failure_keeps_commit_witness :
    ((updatePackageStatus (fun r => r == 10) stW 1 "picked_up" 20 optsW).1.packages.find?
        (fun p => p.id == 1)).map PackageRow.status = some (.str "picked_up") ∧
    (updatePackageStatus (fun r => r == 10) stW 1 "picked_up" 20 optsW).1.tracking.length =
      stW.tracking.length + 1 :=
  notification_failure_keeps_commit (fun r => r == 10) stW 1 "picked_up" 20 optsW (by decide)

/-- C8: getPackageTracking fails with the not-found error on a missing package,
fails with the permission error for an actor that is neither the sender nor
the traveler, and for a party returns exactly the package's transition records
in stored order - oldest first on a chronologically ordered table. -/
theorem history_contract (st : DBState) (pid uid : Nat) :
    (st.packages.find? (fun p => p.id == pid) = none →
      getPackageTracking st pid uid = .error .notFound) ∧
    (∀ pkg, st.packages.find? (fun p => p.id == pid) = some pkg →
      ¬ uid = pkg.senderId → ¬ pkg.travelerId = some uid →
      getPackageTracking st pid uid = .error .permissionDenied) ∧
    (∀ pkg, st.packages.find? (fun p => p.id == pid) = some pkg →
      (uid = pkg.senderId ∨ pkg.travelerId = some uid) →
      getPackageTracking st pid uid =
        .ok (st.tracking.filter (fun tr => tr.packageId == pid)) ∧
      (trackingChronological st →
        (st.tracking.filter (fun tr => tr.packageId == pid)).Pairwise
          (fun a b => a.timestamp ≤ b.timestamp))) := by
  refine ⟨?_, ?_, ?_⟩
  · intro h
    simp [getPackageTracking, h]
  · intro pkg hfind hs ht
    unfold getPackageTracking
    rw [hfind]
    simp [hs, ht]
  · intro pkg hfind hparty
    constructor
    · unfold getPackageTracking
      rw [hfind]
      rcases hparty with h' | h' <;> simp [h']
    · intro hchron
      exact List.Pairwise.sublist (List.filter_sublist st.tracking) hchron

/-- Witness for C8: on the sample state, the sender reads back the single
accepted record, a stranger is denied, and a missing package id is not
found. -/
theorem history_contract_witness :
    getPackageTracking stW 1 10 =
      .ok (stW.tracking.filter (fun tr => tr.packageId == 1)) ∧
    getPackageTracking stW 1 99 = .error .permissionDenied ∧
    getPackageTracking stW 2 10 = .error .notFound :=
  ⟨((history_contract stW 1 10).2.2 pkgW (by decide) (Or.inl (by decide))).1,
   (history_contract stW 1 99).2.1 pkgW (by decide) (by decide) (by decide),
   (history_contract stW 2 10).1 (by decide)⟩

/-- C9: at a package in status accepted, the traveler requesting picked_up and
the sender requesting disputed, interleaved so that both SELECTs run before
either UPDATE commits: both calls succeed (there is no Conflict outcome
anywhere in the code) and the final status is the second writer's - a lost
update instead of the one-success-one-Conflict the claim requires. -/
theorem concurrent_lost_update :
    (runConcurrentBothLoadFirst stW 1
        { newStatus := "picked_up", userId := 20 }
        { newStatus := "disputed", userId := 10 }).2.1 = .ok () ∧
    (runConcurrentBothLoadFirst stW 1
        { newStatus := "picked_up", userId := 20 }
        { newStatus := "disputed", userId := 10 }).2.2 = .ok () ∧
    ((runConcurrentBothLoadFirst stW 1
        { newStatus := "picked_up", userId := 20 }
        { newStatus := "disputed", userId := 10 }).1.packages.find?
        (fun p => p.id == 1)).map PackageRow.status = some (.str "disputed") := by
  decide

end ChapChap
